import Mathlib

/-!
Verification of the provider-selection core of the amplify-backend repository.

This file gives a shallow embedding of:
  * `app/services/ai_service_factory.py` (`AIServiceFactory`),
  * `app/services/gemini_service.py` (`GeminiService`),
  * `app/services/openai_service.py` (`OpenAIService`),
  * `app/services/tts_service.py` (`TTSService`),
and proves the behavioural properties claimed by the specification.

Modelling conventions:
  * Python exceptions become `Except String α`; the error string is the
    exception message built by the source.
  * Configuration (`app.core.config.settings`) becomes an explicit `Settings`
    record.  A missing/`None`/empty credential is modelled as the empty
    string, matching Python truthiness (`if not settings.gemini_api_key`).
  * Calls into external SDKs (`genai`, `openai`, `elevenlabs`, the prompt
    template loader) are modelled as explicit environment records whose
    fields give the outcome of each external call; the code around those
    calls is translated from the source.
  * Mutation of `self._service_cache` becomes explicit state passing: each
    stateful method returns its result together with the updated factory.
-/

/-- A constructed enhancement-service object.  The factory builds
`GeminiService(api_key, model)` or `OpenAIService(api_key, model)`; the
constructor arguments are the only data relevant here. -/
inductive ServiceHandle where
  | gemini (api_key model : String) : ServiceHandle
  | openai (api_key model : String) : ServiceHandle
  deriving DecidableEq, Repr

/-- `GeminiService.get_provider_name` / `OpenAIService.get_provider_name`:
constant per concrete class. -/
def ServiceHandle.get_provider_name : ServiceHandle → String
  | .gemini _ _ => "gemini"
  | .openai _ _ => "openai"

/-- The slice of `app.core.config.settings` the factory reads.  An absent
credential (Python `None` or `""`, both falsy) is the empty string. -/
structure Settings where
  ai_provider : String
  gemini_api_key : String
  openai_api_key : String
  gemini_model : String
  openai_model : String
  deriving DecidableEq, Repr

/-- Outcomes of the external SDK initialisation performed inside the two
service constructors (`genai.configure`/`GenerativeModel` for Gemini,
`openai.OpenAI(...)` for OpenAI).  `.error msg` models the constructor
raising with message `msg`. -/
structure ProviderEnv where
  geminiInit : Except String Unit
  openaiInit : Except String Unit

/-- `GeminiService.__init__` (called with explicit arguments by the factory):
raises when the api key is falsy, then performs external initialisation. -/
def GeminiService.init (api_key model : String) (env : ProviderEnv) :
    Except String ServiceHandle :=
  if api_key = "" then
    .error "GEMINI_API_KEY environment variable is required"
  else
    match env.geminiInit with
    | .error e => .error e
    | .ok _ => .ok (ServiceHandle.gemini api_key model)

/-- `OpenAIService.__init__` (called with explicit arguments by the factory). -/
def OpenAIService.init (api_key model : String) (env : ProviderEnv) :
    Except String ServiceHandle :=
  if api_key = "" then
    .error "OPENAI_API_KEY environment variable is required"
  else
    match env.openaiInit with
    | .error e => .error e
    | .ok _ => .ok (ServiceHandle.openai api_key model)

/-- Factory state: `enable_fallback` flag and the `_service_cache` field
(`None` ↦ `none`).  A Python service object is always truthy, so
`if self._service_cache:` tests exactly `service_cache ≠ none`. -/
structure AIServiceFactory where
  enable_fallback : Bool
  service_cache : Option ServiceHandle
  deriving DecidableEq, Repr

/-- `AIServiceFactory._create_gemini_service`. -/
def AIServiceFactory.create_gemini_service (s : Settings) (env : ProviderEnv) :
    Except String ServiceHandle :=
  if s.gemini_api_key = "" then
    .error "Gemini API key is required but not provided"
  else
    GeminiService.init s.gemini_api_key s.gemini_model env

/-- `AIServiceFactory._create_openai_service`. -/
def AIServiceFactory.create_openai_service (s : Settings) (env : ProviderEnv) :
    Except String ServiceHandle :=
  if s.openai_api_key = "" then
    .error "OpenAI API key is required but not provided"
  else
    OpenAIService.init s.openai_api_key s.openai_model env

/-- `AIServiceFactory._create_service_for_provider`. -/
def AIServiceFactory.create_service_for_provider (provider : String)
    (s : Settings) (env : ProviderEnv) : Except String ServiceHandle :=
  if provider = "gemini" then
    AIServiceFactory.create_gemini_service s env
  else if provider = "openai" then
    AIServiceFactory.create_openai_service s env
  else
    .error ("Unsupported AI provider: " ++ provider)

/-- `AIServiceFactory.get_available_providers`: recomputed from current
credential presence on every call. -/
def AIServiceFactory.get_available_providers (s : Settings) : List String :=
  (if s.gemini_api_key = "" then [] else ["gemini"]) ++
    (if s.openai_api_key = "" then [] else ["openai"])

/-- Whether constructing `provider` succeeds in the given configuration and
environment (used by the fallback loop and by `health_check`). -/
def AIServiceFactory.constructsOk (provider : String) (s : Settings)
    (env : ProviderEnv) : Bool :=
  match AIServiceFactory.create_service_for_provider provider s env with
  | .ok _ => true
  | .error _ => false

/-- The `for provider in fallback_providers:` loop in
`AIServiceFactory.create_service`: try each candidate in order, cache and
return the first success; raise the terminal error citing the primary
failure `primaryErr` when the list is exhausted. -/
def AIServiceFactory.tryFallbacks (f : AIServiceFactory) (primaryErr : String)
    (s : Settings) (env : ProviderEnv) :
    List String → Except String ServiceHandle × AIServiceFactory
  | [] => (.error ("Failed to create any AI service. Primary: " ++ primaryErr), f)
  | p :: rest =>
    match AIServiceFactory.create_service_for_provider p s env with
    | .ok svc => (.ok svc, { f with service_cache := some svc })
    | .error _ => AIServiceFactory.tryFallbacks f primaryErr s env rest

/-- `AIServiceFactory.create_service`. -/
def AIServiceFactory.create_service (f : AIServiceFactory) (s : Settings)
    (env : ProviderEnv) : Except String ServiceHandle × AIServiceFactory :=
  match f.service_cache with
  | some svc => (.ok svc, f)
  | none =>
    match AIServiceFactory.create_service_for_provider s.ai_provider s env with
    | .ok svc => (.ok svc, { f with service_cache := some svc })
    | .error e =>
      if f.enable_fallback = false then
        (.error ("Failed to create " ++ s.ai_provider ++ " service: " ++ e), f)
      else
        AIServiceFactory.tryFallbacks f e s env
          ((AIServiceFactory.get_available_providers s).filter
            (fun p => p ≠ s.ai_provider))

/-- `AIServiceFactory.clear_cache`. -/
def AIServiceFactory.clear_cache (f : AIServiceFactory) : AIServiceFactory :=
  { f with service_cache := none }

/-- `AIServiceFactory.health_check`: per available provider, report
`"healthy"` (here `true`) exactly when construction succeeds; the factory
performs no cache write in this method, so the state is returned unchanged. -/
def AIServiceFactory.health_check (f : AIServiceFactory) (s : Settings)
    (env : ProviderEnv) : List (String × Bool) × AIServiceFactory :=
  ((AIServiceFactory.get_available_providers s).map
      (fun p => (p, AIServiceFactory.constructsOk p s env)), f)

example :
    AIServiceFactory.create_service
      { enable_fallback := true, service_cache := none }
      { ai_provider := "gemini", gemini_api_key := "", openai_api_key := "k",
        gemini_model := "g", openai_model := "m" }
      { geminiInit := .ok (), openaiInit := .ok () } =
    (.ok (ServiceHandle.openai "k" "m"),
      { enable_fallback := true,
        service_cache := some (ServiceHandle.openai "k" "m") }) := by
  rfl

/-- Python's whitespace test for `str.strip()`: the characters removed by a
bare `strip()` call (ASCII whitespace; exotic unicode spaces are out of
scope for the inputs considered here). -/
def pyIsSpace (c : Char) : Bool :=
  c == ' ' || c == '\t' || c == '\n' || c == '\r' || c == '\x0b' || c == '\x0c'

/-- Python truthiness test `not s or not s.strip()`: the string is empty or
consists solely of whitespace. -/
def pyBlank (s : String) : Bool :=
  s.toList.all pyIsSpace

/-- Result model shared by both providers (`app/schemas/ai_response.py`,
`AIResponse` = `GeminiResponse`): an enhanced transcript and an insights
mapping.  The pydantic `Dict[str, str]` is modelled as an association list. -/
structure AIResponse where
  enhanced_transcript : String
  insights : List (String × String)
  deriving DecidableEq, Repr

/-- A Python value occurring in a decoded provider JSON payload, as far as
`_parse_response` inspects it: a string, a dict of insight entries (pydantic
coerces the values to `str`), or anything else. -/
inductive PyVal where
  | vstr (s : String) : PyVal
  | vdict (entries : List (String × String)) : PyVal
  | vother : PyVal
  deriving DecidableEq, Repr

/-- `GeminiService._parse_response`: require both fields to be present (in
the loop order of `required_fields`), require `insights` to be a dict, then
build the pydantic `GeminiResponse` (whose validation requires
`enhanced_transcript` to be a string).  No non-emptiness check is performed
on either field. -/
def GeminiService.parse_response (response : List (String × PyVal)) :
    Except String AIResponse :=
  match response.lookup "enhanced_transcript" with
  | none => .error "Invalid response format: missing 'enhanced_transcript' field"
  | some et =>
    match response.lookup "insights" with
    | none => .error "Invalid response format: missing 'insights' field"
    | some ins =>
      match ins with
      | .vdict entries =>
        match et with
        | .vstr t => .ok { enhanced_transcript := t, insights := entries }
        | _ => .error "validation error for GeminiResponse: enhanced_transcript"
      | _ => .error "Invalid response format: 'insights' must be an object"

/-- `OpenAIService._parse_response` is textually identical to the Gemini one
(only the exception class differs, both modelled as `Except String`). -/
def OpenAIService.parse_response (response : List (String × PyVal)) :
    Except String AIResponse :=
  match response.lookup "enhanced_transcript" with
  | none => .error "Invalid response format: missing 'enhanced_transcript' field"
  | some et =>
    match response.lookup "insights" with
    | none => .error "Invalid response format: missing 'insights' field"
    | some ins =>
      match ins with
      | .vdict entries =>
        match et with
        | .vstr t => .ok { enhanced_transcript := t, insights := entries }
        | _ => .error "validation error for AIResponse: enhanced_transcript"
      | _ => .error "Invalid response format: 'insights' must be an object"

/-- The `valid_languages` set used by `_validate_inputs` in both services and
by `enhance_youtube_insight`. -/
def valid_languages : List String :=
  ["en", "es", "fr", "de", "it", "pt", "ja", "ko", "zh", "ru", "ar", "hi"]

/-- `GeminiService._validate_inputs`.  `len(transcript)` counts characters,
as `String.length` does. -/
def GeminiService.validate_inputs (photo_base64 transcript language : String) :
    Except String Unit :=
  if pyBlank photo_base64 then
    .error "Photo data is required"
  else if pyBlank transcript then
    .error "Transcript is required"
  else if transcript.length > 5000 then
    .error "Transcript too long (max 5000 characters)"
  else if language ∉ valid_languages then
    .error ("Invalid language code: " ++ language)
  else
    .ok ()

/-- `OpenAIService._validate_inputs`: textually identical to the Gemini one. -/
def OpenAIService.validate_inputs (photo_base64 transcript language : String) :
    Except String Unit :=
  if pyBlank photo_base64 then
    .error "Photo data is required"
  else if pyBlank transcript then
    .error "Transcript is required"
  else if transcript.length > 5000 then
    .error "Transcript too long (max 5000 characters)"
  else if language ∉ valid_languages then
    .error ("Invalid language code: " ++ language)
  else
    .ok ()

/-- Outcomes of the Gemini service's external interactions:
`callGeminiApi` is `_call_gemini_api` (image decoding, prompt-template
loading, `model.generate_content`, JSON extraction — every failure there is
raised as a `GeminiError` whose message is the `.error` string), returning
the decoded JSON payload; `callYoutubeApi` is the corresponding remote part
of `enhance_youtube_insight` (prompt build + `generate_content` + JSON
extraction) as a function of its three inputs. -/
structure GeminiEnv where
  callGeminiApi : String → String → String → Except String (List (String × PyVal))
  callYoutubeApi : String → String → String → Except String (List (String × PyVal))

/-- `GeminiService.enhance_story_with_photo`: validate, call the API, parse.
All raised exceptions on this path are already `GeminiError`s, which the
outer handler re-raises unchanged. -/
def GeminiService.enhance_story_with_photo (env : GeminiEnv)
    (photo_base64 transcript language : String) : Except String AIResponse :=
  match GeminiService.validate_inputs photo_base64 transcript language with
  | .error e => .error e
  | .ok _ =>
    match env.callGeminiApi photo_base64 transcript language with
    | .error e => .error e
    | .ok resp => GeminiService.parse_response resp

/-- `GeminiService.enhance_youtube_insight`: validates only the language
code, then performs the remote call and parses the payload; every exception
raised inside its `try` block (including `GeminiError`s from
`_parse_response`) is wrapped as `"YouTube enhancement failed: ..."`. -/
def GeminiService.enhance_youtube_insight (env : GeminiEnv)
    (source_transcript user_transcript language : String) :
    Except String AIResponse :=
  if language ∉ valid_languages then
    .error ("Invalid language code: " ++ language)
  else
    match env.callYoutubeApi source_transcript user_transcript language with
    | .error e => .error ("YouTube enhancement failed: " ++ e)
    | .ok resp =>
      match GeminiService.parse_response resp with
      | .error e => .error ("YouTube enhancement failed: " ++ e)
      | .ok r => .ok r

example :
    GeminiService.parse_response
      [("enhanced_transcript", PyVal.vstr "x"), ("insights", PyVal.vdict [])] =
    .ok { enhanced_transcript := "x", insights := [] } := by rfl

example :
    GeminiService.enhance_story_with_photo
      ⟨fun _ _ _ => .error "net", fun _ _ _ => .error "net"⟩ "p" "" "en" =
    .error "Transcript is required" := by rfl

/-- The base64 alphabet used by `base64.b64encode`. -/
def b64Alphabet : List Char :=
  "ABCDEFGHIJKLMNOPQRSTUVWXYZabcdefghijklmnopqrstuvwxyz0123456789+/".toList

/-- The base64 digit for a 6-bit value. -/
def b64Char (n : Nat) : Char :=
  b64Alphabet.getD n '='

/-- Standard base64 of one full 3-byte group. -/
def b64Chunk3 (b1 b2 b3 : Nat) : List Char :=
  [b64Char (b1 / 4), b64Char (b1 % 4 * 16 + b2 / 16),
    b64Char (b2 % 16 * 4 + b3 / 64), b64Char (b3 % 64)]

/-- `base64.b64encode` on a byte sequence (bytes as `Nat` < 256), with the
standard `=` padding for a trailing 1- or 2-byte group. -/
def b64encodeList : List Nat → List Char
  | [] => []
  | [b1] => [b64Char (b1 / 4), b64Char (b1 % 4 * 16), '=', '=']
  | [b1, b2] => [b64Char (b1 / 4), b64Char (b1 % 4 * 16 + b2 / 16),
      b64Char (b2 % 16 * 4), '=']
  | b1 :: b2 :: b3 :: rest => b64Chunk3 b1 b2 b3 ++ b64encodeList rest

/-- `base64.b64encode(..).decode('utf-8')` as a string. -/
def b64encode (bs : List Nat) : String :=
  String.mk (b64encodeList bs)

/-- The fixed 36-byte silent-MP3 payload built by
`TTSService._generate_mock_audio`. -/
def mock_mp3_data : List Nat :=
  [0xFF, 0xFB, 0x90, 0x00] ++ List.replicate 32 0

/-- `TTSService._generate_mock_audio`: base64-encode the fixed payload and
tag it `"mp3"`; the text and language arguments only feed log lines. -/
def TTSService.generate_mock_audio (_text _language : String) : String × String :=
  (b64encode mock_mp3_data, "mp3")

/-- TTS client state after `_initialize_clients`: whether each provider
client object is present (library importable, key configured, constructor
succeeded). -/
structure TTSService where
  openai_client : Bool
  elevenlabs_client : Bool
  deriving DecidableEq, Repr

/-- The slice of configuration read by `generate_audio`. -/
structure TTSSettings where
  tts_provider : String
  deriving DecidableEq, Repr

/-- Outcomes of the two remote TTS backends (`_generate_openai_audio`,
`_generate_elevenlabs_audio`) as functions of the text, language, and voice
actually passed to them; their internal voice validation and error
classification stay behind this interface. -/
structure TTSEnv where
  openaiTTS : String → String → Option String → Except String (String × String)
  elevenTTS : String → String → Option String → Except String (String × String)

/-- Python `s.lower()` (ASCII case folding suffices for provider names). -/
def pyLower (s : String) : String :=
  String.mk (s.toList.map Char.toLower)

/-- Python `text[:4096]`: the prefix of the first 4096 characters. -/
def pyTake (s : String) (n : Nat) : String :=
  String.mk (s.toList.take n)

/-- The provider-dispatch tail of `TTSService.generate_audio`: send `t` to
the configured provider when its client exists, otherwise fall back to the
mock generator. -/
def TTSService.dispatch (svc : TTSService) (cfg : TTSSettings) (env : TTSEnv)
    (t language : String) (voice : Option String) :
    Except String (String × String) :=
  let provider := pyLower cfg.tts_provider
  if provider = "openai" ∧ svc.openai_client = true then
    env.openaiTTS t language voice
  else if provider = "elevenlabs" ∧ svc.elevenlabs_client = true then
    env.elevenTTS t language voice
  else
    .ok (TTSService.generate_mock_audio t language)

/-- `TTSService.generate_audio`: reject blank text, truncate text longer
than 4096 characters to its 4096-character prefix plus `"..."`, then
dispatch on the configured provider. -/
def TTSService.generate_audio (svc : TTSService) (cfg : TTSSettings)
    (env : TTSEnv) (text language : String) (voice : Option String) :
    Except String (String × String) :=
  if pyBlank text then
    .error "Text content is required"
  else
    TTSService.dispatch svc cfg env
      (if text.length > 4096 then pyTake text 4096 ++ "..." else text)
      language voice

example :
    TTSService.generate_audio ⟨false, false⟩ ⟨"openai"⟩
      ⟨fun _ _ _ => .error "net", fun _ _ _ => .error "net"⟩ "hi" "en" none =
    .ok (b64encode mock_mp3_data, "mp3") := by rfl

/-- The `language_names` mapping shared by `_build_prompt`,
`_build_youtube_prompt` (Gemini) and `_build_prompt` (OpenAI). -/
def language_names : List (String × String) :=
  [("en", "English"), ("es", "Spanish"), ("fr", "French"), ("de", "German"),
    ("it", "Italian"), ("pt", "Portuguese"), ("ja", "Japanese"),
    ("ko", "Korean"), ("zh", "Chinese"), ("ru", "Russian"),
    ("ar", "Arabic"), ("hi", "Hindi")]

/-- `language_names.get(language, 'English')`. -/
def lang_name (language : String) : String :=
  (language_names.lookup language).getD "English"

/-- The OpenAI service object: the fields of
`OpenAIService.__init__` relevant to capability and message building. -/
structure OpenAIService where
  api_key : String
  model : String
  deriving DecidableEq, Repr

/-- `self.vision_models` set in `OpenAIService.__init__`. -/
def OpenAIService.vision_models : List String :=
  ["gpt-4-vision-preview", "gpt-4-turbo"]

/-- `OpenAIService.supports_vision`: membership of the configured model in
the fixed allowlist. -/
def OpenAIService.supports_vision (svc : OpenAIService) : Bool :=
  decide (svc.model ∈ OpenAIService.vision_models)

/-- One chat message as built by `OpenAIService._build_messages`: either the
multi-modal user message carrying a text part and an `image_url` part, or a
plain text-only user message. -/
inductive ChatMessage where
  | visionUser (text image_url : String) : ChatMessage
  | textUser (text : String) : ChatMessage
  deriving DecidableEq, Repr

/-- The note appended to the prompt on the text-only path of
`_build_messages`. -/
def no_vision_note : String :=
  "\n\nNote: An image was provided but cannot be analyzed with this model. Please enhance the story based on the transcript alone."

/-- `OpenAIService._build_messages`. -/
def OpenAIService.build_messages (svc : OpenAIService)
    (prompt photo_base64 : String) : List ChatMessage :=
  if svc.supports_vision then
    [ChatMessage.visionUser prompt ("data:image/jpeg;base64," ++ photo_base64)]
  else
    [ChatMessage.textUser (prompt ++ no_vision_note)]

/-- The JSON-format instruction appended by `OpenAIService._build_prompt`. -/
def json_instruction : String :=
  "\n\nPlease respond with a valid JSON object containing 'enhanced_transcript' and 'insights' fields."

/-- Outcomes of the OpenAI service's external interactions: `socialPrompt`
is the prompt-manager template applied to the transcript and the resolved
language name (it may fail to load); `chatCompletion` is
`client.chat.completions.create` plus `_extract_json_from_response`, as a
function of the messages and the `response_format` JSON-mode flag. -/
structure OpenAIEnv where
  socialPrompt : String → String → Except String String
  chatCompletion : List ChatMessage → Bool → Except String (List (String × PyVal))

/-- `OpenAIService._build_prompt`: resolve the language name, format the
social template, append the JSON instruction; a template-loading failure is
wrapped as an `OpenAIError`. -/
def OpenAIService.build_prompt (env : OpenAIEnv) (transcript language : String) :
    Except String String :=
  match env.socialPrompt transcript (lang_name language) with
  | .error e => .error ("Failed to load prompt template: " ++ e)
  | .ok base => .ok (base ++ json_instruction)

/-- `OpenAIService._call_openai_api`: build the prompt and the messages, then
perform the chat completion (JSON mode exactly when the model supports
vision) and extract the JSON payload. -/
def OpenAIService.call_openai_api (svc : OpenAIService) (env : OpenAIEnv)
    (photo_base64 transcript language : String) :
    Except String (List (String × PyVal)) :=
  match OpenAIService.build_prompt env transcript language with
  | .error e => .error e
  | .ok prompt =>
    env.chatCompletion (svc.build_messages prompt photo_base64)
      svc.supports_vision

/-- `OpenAIService.enhance_story_with_photo`: validate, call the API, parse;
all exceptions on this path are `OpenAIError`s re-raised unchanged by the
outer handler. -/
def OpenAIService.enhance_story_with_photo (svc : OpenAIService)
    (env : OpenAIEnv) (photo_base64 transcript language : String) :
    Except String AIResponse :=
  match OpenAIService.validate_inputs photo_base64 transcript language with
  | .error e => .error e
  | .ok _ =>
    match svc.call_openai_api env photo_base64 transcript language with
    | .error e => .error e
    | .ok resp => OpenAIService.parse_response resp

example :
    OpenAIService.build_messages ⟨"k", "gpt-3.5-turbo"⟩ "P" "IMG" =
    [ChatMessage.textUser ("P" ++ no_vision_note)] := by rfl

example :
    OpenAIService.build_messages ⟨"k", "gpt-4-turbo"⟩ "P" "IMG" =
    [ChatMessage.visionUser "P" "data:image/jpeg;base64,IMG"] := by rfl

/-! ### Factory lemmas -/

theorem AIServiceFactory.tryFallbacks_all_fail (f : AIServiceFactory)
    (e : String) (s : Settings) (env : ProviderEnv) :
    ∀ ps : List String,
      (∀ p ∈ ps, AIServiceFactory.constructsOk p s env = false) →
      AIServiceFactory.tryFallbacks f e s env ps =
        (.error ("Failed to create any AI service. Primary: " ++ e), f)
  | [], _ => rfl
  | p :: rest, h => by
    have hp := h p (List.mem_cons_self p rest)
    rw [AIServiceFactory.constructsOk] at hp
    simp only [AIServiceFactory.tryFallbacks]
    cases hcp : AIServiceFactory.create_service_for_provider p s env with
    | ok svc => rw [hcp] at hp; simp at hp
    | error e2 =>
      exact AIServiceFactory.tryFallbacks_all_fail f e s env rest
        (fun q hq => h q (List.mem_cons_of_mem p hq))

theorem AIServiceFactory.tryFallbacks_first_success (f : AIServiceFactory)
    (e : String) (s : Settings) (env : ProviderEnv) :
    ∀ (ps : List String) (c : String) (svc : ServiceHandle),
      ps.find? (fun p => AIServiceFactory.constructsOk p s env) = some c →
      AIServiceFactory.create_service_for_provider c s env = .ok svc →
      AIServiceFactory.tryFallbacks f e s env ps =
        (.ok svc, { f with service_cache := some svc })
  | [], c, svc, hfind, _ => by simp at hfind
  | p :: rest, c, svc, hfind, hc => by
    cases hcp : AIServiceFactory.create_service_for_provider p s env with
    | ok svc2 =>
      have hp : AIServiceFactory.constructsOk p s env = true := by
        rw [AIServiceFactory.constructsOk, hcp]
      simp only [List.find?, hp] at hfind
      injection hfind with hpc
      subst hpc
      rw [hcp] at hc
      injection hc with hsvc
      simp only [AIServiceFactory.tryFallbacks, hcp, hsvc]
    | error e2 =>
      have hp : AIServiceFactory.constructsOk p s env = false := by
        rw [AIServiceFactory.constructsOk, hcp]
      simp only [List.find?, hp] at hfind
      simp only [AIServiceFactory.tryFallbacks, hcp]
      exact AIServiceFactory.tryFallbacks_first_success f e s env rest c svc
        hfind hc

theorem AIServiceFactory.tryFallbacks_ok_state (f : AIServiceFactory)
    (e : String) (s : Settings) (env : ProviderEnv) :
    ∀ (ps : List String) (h : ServiceHandle) (f' : AIServiceFactory),
      AIServiceFactory.tryFallbacks f e s env ps = (.ok h, f') →
      f' = { f with service_cache := some h }
  | [], h, f', heq => by simp [AIServiceFactory.tryFallbacks] at heq
  | p :: rest, h, f', heq => by
    simp only [AIServiceFactory.tryFallbacks] at heq
    cases hcp : AIServiceFactory.create_service_for_provider p s env with
    | ok svc =>
      rw [hcp] at heq
      simp only [Prod.mk.injEq, Except.ok.injEq] at heq
      obtain ⟨h1, h2⟩ := heq
      rw [← h2, h1]
    | error e2 =>
      rw [hcp] at heq
      exact AIServiceFactory.tryFallbacks_ok_state f e s env rest h f' heq

theorem AIServiceFactory.create_service_ok_state (f : AIServiceFactory)
    (s : Settings) (env : ProviderEnv) (h : ServiceHandle)
    (f' : AIServiceFactory)
    (heq : AIServiceFactory.create_service f s env = (.ok h, f')) :
    f'.service_cache = some h ∧ f'.enable_fallback = f.enable_fallback := by
  unfold AIServiceFactory.create_service at heq
  cases hcache : f.service_cache with
  | some svc =>
    simp only [hcache, Prod.mk.injEq, Except.ok.injEq] at heq
    obtain ⟨h1, h2⟩ := heq
    rw [← h2, hcache, h1]
    exact ⟨rfl, rfl⟩
  | none =>
    simp only [hcache] at heq
    cases hcp : AIServiceFactory.create_service_for_provider s.ai_provider s env with
    | ok svc =>
      simp only [hcp, Prod.mk.injEq, Except.ok.injEq] at heq
      obtain ⟨h1, h2⟩ := heq
      rw [← h2, h1]
      exact ⟨rfl, rfl⟩
    | error e =>
      simp only [hcp] at heq
      by_cases hfb : f.enable_fallback = false
      · rw [if_pos hfb] at heq
        simp at heq
      · rw [if_neg hfb] at heq
        have := AIServiceFactory.tryFallbacks_ok_state f e s env _ h f' heq
        rw [this]
        exact ⟨rfl, rfl⟩

/-! ### Claim theorems: factory -/

/-- C1: with fallback enabled and an empty cache, if the primary provider
fails to construct and some provider in `get_available_providers()` other
than the primary constructs successfully, `create_service` returns and
caches the handle of the first such candidate in availability order,
without raising. -/
theorem create_service_fallback_first_success (f : AIServiceFactory)
    (s : Settings) (env : ProviderEnv) (c : String) (svc : ServiceHandle)
    (hcache : f.service_cache = none)
    (hfb : f.enable_fallback = true)
    (hprimary : AIServiceFactory.constructsOk s.ai_provider s env = false)
    (hfind : ((AIServiceFactory.get_available_providers s).filter
        (fun p => p ≠ s.ai_provider)).find?
        (fun p => AIServiceFactory.constructsOk p s env) = some c)
    (hc : AIServiceFactory.create_service_for_provider c s env = .ok svc) :
    AIServiceFactory.create_service f s env =
      (.ok svc, { f with service_cache := some svc }) := by
  have hex : ∃ e, AIServiceFactory.create_service_for_provider s.ai_provider s env
      = .error e := by
    rw [AIServiceFactory.constructsOk] at hprimary
    cases hcp : AIServiceFactory.create_service_for_provider s.ai_provider s env with
    | ok svc2 => rw [hcp] at hprimary; simp at hprimary
    | error e2 => exact ⟨e2, rfl⟩
  obtain ⟨e, hcp⟩ := hex
  unfold AIServiceFactory.create_service
  simp only [hcache, hcp]
  rw [if_neg (by rw [hfb]; decide)]
  exact AIServiceFactory.tryFallbacks_first_success f e s env _ c svc hfind hc

/-- C1 witness: primary `"gemini"` with no credential, fallback enabled,
`"openai"` credential present: `create_service` returns an OpenAI-backed
handle whose `get_provider_name()` is `"openai"`, and caches it. -/
theorem create_service_fallback_first_success_witness :
    AIServiceFactory.create_service ⟨true, none⟩
        ⟨"gemini", "", "sk-openai", "gm", "gpt-4-turbo"⟩ ⟨.ok (), .ok ()⟩ =
      (.ok (ServiceHandle.openai "sk-openai" "gpt-4-turbo"),
        ⟨true, some (ServiceHandle.openai "sk-openai" "gpt-4-turbo")⟩) ∧
    (ServiceHandle.openai "sk-openai" "gpt-4-turbo").get_provider_name =
      "openai" :=
  ⟨create_service_fallback_first_success ⟨true, none⟩
      ⟨"gemini", "", "sk-openai", "gm", "gpt-4-turbo"⟩ ⟨.ok (), .ok ()⟩
      "openai" (ServiceHandle.openai "sk-openai" "gpt-4-turbo")
      rfl rfl (by decide) (by decide) rfl, rfl⟩

/-- C2: with an empty cache and a failing primary, `create_service` raises a
factory error exactly when no candidate constructs: with fallback disabled
it raises the error wrapping the primary failure without consulting any
other provider (the environment of the other providers is arbitrary); with
fallback enabled and every fallback candidate failing it raises the single
terminal error whose message cites the primary failure only.  In both cases
the factory state is returned unchanged, so the cache stays empty and a
subsequent call re-attempts construction. -/
theorem create_service_failure_modes (f : AIServiceFactory) (s : Settings)
    (env : ProviderEnv) (e : String)
    (hcache : f.service_cache = none)
    (hprimary : AIServiceFactory.create_service_for_provider s.ai_provider s env
      = .error e) :
    (f.enable_fallback = false →
      AIServiceFactory.create_service f s env =
        (.error ("Failed to create " ++ s.ai_provider ++ " service: " ++ e),
          f)) ∧
    (f.enable_fallback = true →
      (∀ p ∈ (AIServiceFactory.get_available_providers s).filter
          (fun p => p ≠ s.ai_provider),
        AIServiceFactory.constructsOk p s env = false) →
      AIServiceFactory.create_service f s env =
        (.error ("Failed to create any AI service. Primary: " ++ e), f)) := by
  constructor
  · intro hfb
    unfold AIServiceFactory.create_service
    simp only [hcache, hprimary]
    rw [if_pos hfb]
  · intro hfb hall
    unfold AIServiceFactory.create_service
    simp only [hcache, hprimary]
    rw [if_neg (by rw [hfb]; simp)]
    exact AIServiceFactory.tryFallbacks_all_fail f e s env _ hall

/-- C2 witness: both credentials present but both SDK initialisations fail.
With fallback disabled the error wraps the primary (gemini) failure; with
fallback enabled the terminal error cites only the primary failure; both
leave the cache empty. -/
theorem create_service_failure_modes_witness :
    AIServiceFactory.create_service ⟨false, none⟩
        ⟨"gemini", "gk", "okk", "gm", "om"⟩
        ⟨.error "gemini down", .error "openai down"⟩ =
      (.error "Failed to create gemini service: gemini down",
        ⟨false, none⟩) ∧
    AIServiceFactory.create_service ⟨true, none⟩
        ⟨"gemini", "gk", "okk", "gm", "om"⟩
        ⟨.error "gemini down", .error "openai down"⟩ =
      (.error "Failed to create any AI service. Primary: gemini down",
        ⟨true, none⟩) :=
  ⟨(create_service_failure_modes ⟨false, none⟩
      ⟨"gemini", "gk", "okk", "gm", "om"⟩
      ⟨.error "gemini down", .error "openai down"⟩ "gemini down"
      rfl rfl).1 rfl,
   (create_service_failure_modes ⟨true, none⟩
      ⟨"gemini", "gk", "okk", "gm", "om"⟩
      ⟨.error "gemini down", .error "openai down"⟩ "gemini down"
      rfl rfl).2 rfl (by decide)⟩

/-- C6: after any successful `create_service` (which caches), every
subsequent call returns the very same handle and state regardless of
configuration or environment (no construction attempt, no re-validation);
`clear_cache` unconditionally empties the cache, after which
`create_service` behaves as on a factory that never cached anything, i.e.
re-runs the full construction/fallback sequence. -/
theorem create_service_cache_round_trip (f f' : AIServiceFactory)
    (s : Settings) (env : ProviderEnv) (h : ServiceHandle)
    (hrun : AIServiceFactory.create_service f s env = (.ok h, f')) :
    (∀ (s2 : Settings) (env2 : ProviderEnv),
      AIServiceFactory.create_service f' s2 env2 = (.ok h, f')) ∧
    (AIServiceFactory.clear_cache f').service_cache = none ∧
    (∀ (s2 : Settings) (env2 : ProviderEnv),
      AIServiceFactory.create_service (AIServiceFactory.clear_cache f') s2 env2
        = AIServiceFactory.create_service ⟨f.enable_fallback, none⟩ s2 env2) := by
  obtain ⟨hc, hfb⟩ := AIServiceFactory.create_service_ok_state f s env h f' hrun
  obtain ⟨fb', cache'⟩ := f'
  simp only at hc hfb
  subst hc hfb
  refine ⟨?_, rfl, ?_⟩
  · intro s2 env2
    rfl
  · intro s2 env2
    rfl

/-- C6 witness: a factory that cached a gemini handle keeps returning it
unchanged even in an environment where every construction would now fail. -/
theorem create_service_cache_round_trip_witness :
    AIServiceFactory.create_service
        ⟨true, some (ServiceHandle.gemini "gk" "gm")⟩
        ⟨"gemini", "", "", "gm", "om"⟩
        ⟨.error "down", .error "down"⟩ =
      (.ok (ServiceHandle.gemini "gk" "gm"),
        ⟨true, some (ServiceHandle.gemini "gk" "gm")⟩) :=
  (create_service_cache_round_trip
      ⟨true, some (ServiceHandle.gemini "gk" "gm")⟩
      ⟨true, some (ServiceHandle.gemini "gk" "gm")⟩
      ⟨"gemini", "gk", "", "gm", "om"⟩ ⟨.ok (), .ok ()⟩
      (ServiceHandle.gemini "gk" "gm") rfl).1
    ⟨"gemini", "", "", "gm", "om"⟩ ⟨.error "down", .error "down"⟩

/-- C9: `health_check` probes construction of every available provider and
reports a per-provider healthy/unhealthy status, but returns the factory
state unchanged — in particular the cached handle is untouched and a
subsequent `create_service` behaves exactly as it would have before the
probe. -/
theorem health_check_frame (f : AIServiceFactory) (s : Settings)
    (env : ProviderEnv) :
    (AIServiceFactory.health_check f s env).2 = f ∧
    (AIServiceFactory.health_check f s env).2.service_cache = f.service_cache ∧
    (AIServiceFactory.health_check f s env).1 =
      (AIServiceFactory.get_available_providers s).map
        (fun p => (p, AIServiceFactory.constructsOk p s env)) ∧
    ∀ (s2 : Settings) (env2 : ProviderEnv),
      AIServiceFactory.create_service (AIServiceFactory.health_check f s env).2
          s2 env2 =
        AIServiceFactory.create_service f s2 env2 :=
  ⟨rfl, rfl, rfl, fun _ _ => rfl⟩

/-! ### Claim theorems: enhancement validation and response parsing -/

/-- A concrete environment whose remote calls all fail (used to witness that
validation errors are raised before any network interaction matters). -/
def geminiEnvStub : GeminiEnv :=
  ⟨fun _ _ _ => .error "network unavailable",
    fun _ _ _ => .error "network unavailable"⟩

/-- A concrete environment whose remote calls return a complete payload. -/
def geminiEnvOkStub : GeminiEnv :=
  ⟨fun _ _ _ => .ok [("enhanced_transcript", PyVal.vstr "E"),
      ("insights", PyVal.vdict [("framework", "good")])],
    fun _ _ _ => .ok [("enhanced_transcript", PyVal.vstr "E"),
      ("insights", PyVal.vdict [("framework", "good")])]⟩

/-- C4: each of the four validation rules (blank photo, blank transcript,
transcript over 5000 characters, language outside the supported set) makes
`enhance_story_with_photo` raise the error naming the violated rule, for
every environment — i.e. before any network call can influence the result;
and inputs satisfying all four rules pass `_validate_inputs` in both the
Gemini and the OpenAI service. -/
theorem enhance_story_validation (photo transcript language : String) :
    (pyBlank photo = true → ∀ env : GeminiEnv,
      GeminiService.enhance_story_with_photo env photo transcript language =
        .error "Photo data is required") ∧
    (pyBlank photo = false → pyBlank transcript = true → ∀ env : GeminiEnv,
      GeminiService.enhance_story_with_photo env photo transcript language =
        .error "Transcript is required") ∧
    (pyBlank photo = false → pyBlank transcript = false →
      transcript.length > 5000 → ∀ env : GeminiEnv,
      GeminiService.enhance_story_with_photo env photo transcript language =
        .error "Transcript too long (max 5000 characters)") ∧
    (pyBlank photo = false → pyBlank transcript = false →
      transcript.length ≤ 5000 → language ∉ valid_languages →
      ∀ env : GeminiEnv,
      GeminiService.enhance_story_with_photo env photo transcript language =
        .error ("Invalid language code: " ++ language)) ∧
    (pyBlank photo = false → pyBlank transcript = false →
      transcript.length ≤ 5000 → language ∈ valid_languages →
      GeminiService.validate_inputs photo transcript language = .ok () ∧
      OpenAIService.validate_inputs photo transcript language = .ok ()) := by
  refine ⟨?_, ?_, ?_, ?_, ?_⟩
  · intro h1 env
    have hv : GeminiService.validate_inputs photo transcript language =
        .error "Photo data is required" := by
      unfold GeminiService.validate_inputs
      rw [if_pos h1]
    unfold GeminiService.enhance_story_with_photo
    simp only [hv]
  · intro h1 h2 env
    have hv : GeminiService.validate_inputs photo transcript language =
        .error "Transcript is required" := by
      unfold GeminiService.validate_inputs
      rw [if_neg (by simp [h1]), if_pos h2]
    unfold GeminiService.enhance_story_with_photo
    simp only [hv]
  · intro h1 h2 h3 env
    have hv : GeminiService.validate_inputs photo transcript language =
        .error "Transcript too long (max 5000 characters)" := by
      unfold GeminiService.validate_inputs
      rw [if_neg (by simp [h1]), if_neg (by simp [h2]), if_pos h3]
    unfold GeminiService.enhance_story_with_photo
    simp only [hv]
  · intro h1 h2 h3 h4 env
    have hv : GeminiService.validate_inputs photo transcript language =
        .error ("Invalid language code: " ++ language) := by
      unfold GeminiService.validate_inputs
      rw [if_neg (by simp [h1]), if_neg (by simp [h2]),
        if_neg (Nat.not_lt.mpr h3), if_pos h4]
    unfold GeminiService.enhance_story_with_photo
    simp only [hv]
  · intro h1 h2 h3 h4
    constructor
    · unfold GeminiService.validate_inputs
      rw [if_neg (by simp [h1]), if_neg (by simp [h2]),
        if_neg (Nat.not_lt.mpr h3), if_neg (not_not_intro h4)]
    · unfold OpenAIService.validate_inputs
      rw [if_neg (by simp [h1]), if_neg (by simp [h2]),
        if_neg (Nat.not_lt.mpr h3), if_neg (not_not_intro h4)]

/-- C4 witness: an empty transcript raises the transcript-required error and
an unsupported language code raises the language error, in an environment
whose network calls would fail; a fully valid input passes validation. -/
theorem enhance_story_validation_witness :
    GeminiService.enhance_story_with_photo geminiEnvStub "p" "" "en" =
      .error "Transcript is required" ∧
    GeminiService.enhance_story_with_photo geminiEnvStub "p" "hello" "xx" =
      .error "Invalid language code: xx" ∧
    GeminiService.validate_inputs "p" "hello" "en" = .ok () :=
  ⟨(enhance_story_validation "p" "" "en").2.1 (by decide) (by decide)
      geminiEnvStub,
    (enhance_story_validation "p" "hello" "xx").2.2.2.1 (by decide) (by decide)
      (by decide) (by decide) geminiEnvStub,
    ((enhance_story_validation "p" "hello" "en").2.2.2.2 (by decide) (by decide)
      (by decide) (by decide)).1⟩

/-- C3 counterexample: the payload with a present `enhanced_transcript` and a
present but empty `insights` object is accepted by `_parse_response`, which
returns a result whose insights mapping is empty — contradicting the claim
that a returned result always has non-empty insights. -/
theorem parse_response_nonempty_cex :
    GeminiService.parse_response
        [("enhanced_transcript", PyVal.vstr "x"), ("insights", PyVal.vdict [])]
      = .ok { enhanced_transcript := "x", insights := [] } ∧
    ({ enhanced_transcript := "x", insights := [] } : AIResponse).insights = []
    := ⟨rfl, rfl⟩

/-- C3 amended: `_parse_response` raises the error identifying the missing
required field when `enhanced_transcript` or `insights` is absent, and the
not-an-object error when `insights` is not a dict; otherwise it returns the
payload's values verbatim, performing no non-emptiness check on either
field. -/
theorem parse_response_contract (resp : List (String × PyVal)) :
    (resp.lookup "enhanced_transcript" = none →
      GeminiService.parse_response resp =
        .error "Invalid response format: missing 'enhanced_transcript' field") ∧
    (∀ et, resp.lookup "enhanced_transcript" = some et →
      resp.lookup "insights" = none →
      GeminiService.parse_response resp =
        .error "Invalid response format: missing 'insights' field") ∧
    (∀ et, resp.lookup "enhanced_transcript" = some et →
      ∀ ins, resp.lookup "insights" = some ins →
      (∀ es, ins ≠ PyVal.vdict es) →
      GeminiService.parse_response resp =
        .error "Invalid response format: 'insights' must be an object") ∧
    (∀ t entries, resp.lookup "enhanced_transcript" = some (PyVal.vstr t) →
      resp.lookup "insights" = some (PyVal.vdict entries) →
      GeminiService.parse_response resp =
        .ok { enhanced_transcript := t, insights := entries }) := by
  refine ⟨?_, ?_, ?_, ?_⟩
  · intro h1
    unfold GeminiService.parse_response
    simp only [h1]
  · intro et h1 h2
    unfold GeminiService.parse_response
    simp only [h1, h2]
  · intro et h1 ins h2 hne
    cases ins with
    | vstr s2 =>
      unfold GeminiService.parse_response
      simp only [h1, h2]
    | vdict es => exact absurd rfl (hne es)
    | vother =>
      unfold GeminiService.parse_response
      simp only [h1, h2]
  · intro t entries h1 h2
    unfold GeminiService.parse_response
    simp only [h1, h2]

/-- C3 amended-claim witness: a payload missing `enhanced_transcript` is
rejected naming that field; a complete payload is returned verbatim. -/
theorem parse_response_contract_witness :
    GeminiService.parse_response [("insights", PyVal.vdict [("a", "b")])] =
      .error "Invalid response format: missing 'enhanced_transcript' field" ∧
    GeminiService.parse_response
        [("enhanced_transcript", PyVal.vstr "E"),
          ("insights", PyVal.vdict [("a", "b")])] =
      .ok { enhanced_transcript := "E", insights := [("a", "b")] } :=
  ⟨(parse_response_contract [("insights", PyVal.vdict [("a", "b")])]).1 rfl,
    (parse_response_contract
        [("enhanced_transcript", PyVal.vstr "E"),
          ("insights", PyVal.vdict [("a", "b")])]).2.2.2 "E" [("a", "b")]
      rfl rfl⟩

/-- C8 counterexample: `enhance_youtube_insight` does not apply the
transcript validations of `enhance_story_with_photo`: with an empty user
transcript it proceeds to the remote call and returns a parsed result
instead of raising an input-validation error. -/
theorem enhance_youtube_insight_cex :
    GeminiService.enhance_youtube_insight geminiEnvOkStub "source text" "" "en"
      = .ok { enhanced_transcript := "E", insights := [("framework", "good")] }
    := by rfl

/-- C8 amended: `enhance_youtube_insight` validates only the language code
(raising the same invalid-language error as `_validate_inputs` for a code
outside the shared supported set); blank or over-long transcripts are not
rejected; a successful remote payload is handed to the same
`_parse_response` contract. -/
theorem enhance_youtube_insight_contract (env : GeminiEnv)
    (source_transcript user_transcript language : String) :
    (language ∉ valid_languages →
      GeminiService.enhance_youtube_insight env source_transcript
          user_transcript language =
        .error ("Invalid language code: " ++ language)) ∧
    (language ∈ valid_languages →
      ∀ resp, env.callYoutubeApi source_transcript user_transcript language =
        .ok resp →
      ∀ r, GeminiService.parse_response resp = .ok r →
      GeminiService.enhance_youtube_insight env source_transcript
          user_transcript language = .ok r) := by
  constructor
  · intro h
    unfold GeminiService.enhance_youtube_insight
    rw [if_pos h]
  · intro h resp hresp r hr
    unfold GeminiService.enhance_youtube_insight
    rw [if_neg (not_not_intro h)]
    simp only [hresp, hr]

/-- C8 amended-claim witness: an unsupported language code is rejected with
the shared error; a supported language with a complete payload parses into
the shared result contract (here with an empty user transcript, which is
accepted). -/
theorem enhance_youtube_insight_contract_witness :
    GeminiService.enhance_youtube_insight geminiEnvStub "s" "u" "xx" =
      .error "Invalid language code: xx" ∧
    GeminiService.enhance_youtube_insight geminiEnvOkStub "s" "" "en" =
      .ok { enhanced_transcript := "E", insights := [("framework", "good")] } :=
  ⟨(enhance_youtube_insight_contract geminiEnvStub "s" "u" "xx").1 (by decide),
    (enhance_youtube_insight_contract geminiEnvOkStub "s" "" "en").2 (by decide)
      _ rfl _ rfl⟩

/-! ### Claim theorems: TTS -/

/-- A concrete TTS environment whose remote backends all fail. -/
def ttsEnvStub : TTSEnv :=
  ⟨fun _ _ _ => .error "network unavailable",
    fun _ _ _ => .error "network unavailable"⟩

/-- C5 counterexample: a whitespace-only text is a non-empty string, yet
`generate_audio` raises the text-required validation error instead of
returning the mock payload, even with no provider client available. -/
theorem generate_audio_mock_cex :
    (" " : String) ≠ "" ∧
    TTSService.generate_audio ⟨false, false⟩ ⟨"openai"⟩ ttsEnvStub " " "en" none
      = .error "Text content is required" := ⟨by decide, rfl⟩

/-- C5 amended: for every non-blank text, when the configured provider name
does not select an available client (either because the name matches no
client or the matching client is absent), `generate_audio` returns the
deterministic mock result — the fixed non-empty base64 MP3 payload tagged
`"mp3"` — for every environment, so it never fails for
provider-unavailability reasons. -/
theorem generate_audio_mock_fallback (svc : TTSService) (cfg : TTSSettings)
    (env : TTSEnv) (text language : String) (voice : Option String)
    (htext : pyBlank text = false)
    (hopenai : ¬(pyLower cfg.tts_provider = "openai" ∧
      svc.openai_client = true))
    (heleven : ¬(pyLower cfg.tts_provider = "elevenlabs" ∧
      svc.elevenlabs_client = true)) :
    TTSService.generate_audio svc cfg env text language voice =
      .ok (b64encode mock_mp3_data, "mp3") ∧
    b64encode mock_mp3_data ≠ "" := by
  constructor
  · simp [TTSService.generate_audio, TTSService.dispatch, htext, hopenai,
      heleven, TTSService.generate_mock_audio]
  · decide

/-- C5 amended-claim witness: non-blank text, configured provider
`"openai"` but no client objects: the mock payload is returned even though
every remote backend would fail. -/
theorem generate_audio_mock_fallback_witness :
    TTSService.generate_audio ⟨false, false⟩ ⟨"openai"⟩ ttsEnvStub "hello" "en"
        none = .ok (b64encode mock_mp3_data, "mp3") :=
  (generate_audio_mock_fallback ⟨false, false⟩ ⟨"openai"⟩ ttsEnvStub "hello"
      "en" none (by decide) (by decide) (by decide)).1

/-- C7: blank text raises the validation error; text longer than 4096
characters is deterministically replaced, before dispatch, by exactly its
4096-character prefix followed by the fixed `"..."` marker; text at or
under the threshold is dispatched unchanged. -/
theorem generate_audio_truncation (svc : TTSService) (cfg : TTSSettings)
    (env : TTSEnv) (text language : String) (voice : Option String) :
    (pyBlank text = true →
      TTSService.generate_audio svc cfg env text language voice =
        .error "Text content is required") ∧
    (pyBlank text = false → text.length > 4096 →
      TTSService.generate_audio svc cfg env text language voice =
        TTSService.dispatch svc cfg env (pyTake text 4096 ++ "...") language
          voice ∧
      (pyTake text 4096).length = 4096) ∧
    (pyBlank text = false → text.length ≤ 4096 →
      TTSService.generate_audio svc cfg env text language voice =
        TTSService.dispatch svc cfg env text language voice) := by
  refine ⟨?_, ?_, ?_⟩
  · intro h
    unfold TTSService.generate_audio
    rw [if_pos h]
  · intro h hlen
    constructor
    · unfold TTSService.generate_audio
      rw [if_neg (by simp [h]), if_pos hlen]
    · have hlen' : 4096 < text.data.length := hlen
      simp only [pyTake, String.toList, String.length, List.length_take]
      omega
  · intro h hlen
    unfold TTSService.generate_audio
    rw [if_neg (by simp [h]), if_neg (Nat.not_lt.mpr hlen)]

/-- C7 witness: blank text rejected; a 5-character text dispatched
unchanged; a 4097-character text dispatched as its 4096-character prefix
plus `"..."`. -/
theorem generate_audio_truncation_witness :
    TTSService.generate_audio ⟨false, false⟩ ⟨"none"⟩ ttsEnvStub "   " "en"
        none = .error "Text content is required" ∧
    TTSService.generate_audio ⟨false, false⟩ ⟨"none"⟩ ttsEnvStub "short" "en"
        none =
      TTSService.dispatch ⟨false, false⟩ ⟨"none"⟩ ttsEnvStub "short" "en"
        none ∧
    (TTSService.generate_audio ⟨false, false⟩ ⟨"none"⟩ ttsEnvStub
        (String.mk (List.replicate 4097 'a')) "en" none =
      TTSService.dispatch ⟨false, false⟩ ⟨"none"⟩ ttsEnvStub
        (pyTake (String.mk (List.replicate 4097 'a')) 4096 ++ "...") "en"
        none ∧
      (pyTake (String.mk (List.replicate 4097 'a')) 4096).length = 4096) :=
  ⟨(generate_audio_truncation ⟨false, false⟩ ⟨"none"⟩ ttsEnvStub "   " "en"
        none).1 (by decide),
    (generate_audio_truncation ⟨false, false⟩ ⟨"none"⟩ ttsEnvStub "short" "en"
        none).2.2 (by decide) (by decide),
    (generate_audio_truncation ⟨false, false⟩ ⟨"none"⟩ ttsEnvStub
        (String.mk (List.replicate 4097 'a')) "en" none).2.1 (by decide)
      (by show 4096 < (List.replicate 4097 'a').length
          rw [List.length_replicate]
          omega)⟩

/-! ### Claim theorems: OpenAI non-vision downgrade -/

/-- A concrete OpenAI environment: the prompt template loads and the chat
completion returns a complete payload. -/
def openaiEnvStub : OpenAIEnv :=
  ⟨fun _ _ => .ok "PROMPT",
    fun _ _ => .ok [("enhanced_transcript", PyVal.vstr "E"),
      ("insights", PyVal.vdict [("a", "b")])]⟩

/-- C10: for a model outside the vision allowlist, `supports_vision` is
`false`; `_build_messages` builds a single text-only message carrying the
prompt plus the cannot-analyze note, independent of the photo data (the
photo bytes never reach the backend); and on otherwise-valid input
`enhance_story_with_photo` proceeds — with no capability-mismatch error —
to the chat completion carrying exactly that text-only message (and JSON
mode off), whose outcome alone determines the result. -/
theorem openai_non_vision_downgrade (svc : OpenAIService) (env : OpenAIEnv)
    (prompt photo transcript language : String)
    (hmodel : svc.model ∉ OpenAIService.vision_models) :
    svc.supports_vision = false ∧
    OpenAIService.build_messages svc prompt photo =
      [ChatMessage.textUser (prompt ++ no_vision_note)] ∧
    (∀ photo2, OpenAIService.build_messages svc prompt photo2 =
      OpenAIService.build_messages svc prompt photo) ∧
    (pyBlank photo = false → pyBlank transcript = false →
      transcript.length ≤ 5000 → language ∈ valid_languages →
      ∀ base, env.socialPrompt transcript (lang_name language) = .ok base →
      OpenAIService.enhance_story_with_photo svc env photo transcript language
        = (match env.chatCompletion
            [ChatMessage.textUser (base ++ json_instruction ++ no_vision_note)]
            false with
          | .error e => .error e
          | .ok resp => OpenAIService.parse_response resp)) := by
  have hsv : svc.supports_vision = false := by
    rw [OpenAIService.supports_vision]
    exact decide_eq_false hmodel
  refine ⟨hsv, ?_, ?_, ?_⟩
  · simp [OpenAIService.build_messages, hsv]
  · intro photo2
    simp [OpenAIService.build_messages, hsv]
  · intro h1 h2 h3 h4 base hbase
    have hv : OpenAIService.validate_inputs photo transcript language =
        .ok () := by
      unfold OpenAIService.validate_inputs
      rw [if_neg (by simp [h1]), if_neg (by simp [h2]),
        if_neg (Nat.not_lt.mpr h3), if_neg (not_not_intro h4)]
    unfold OpenAIService.enhance_story_with_photo
    simp only [hv]
    unfold OpenAIService.call_openai_api OpenAIService.build_prompt
    simp only [hbase]
    simp [OpenAIService.build_messages, hsv]

/-- C10 witness: `"gpt-3.5-turbo"` is outside the allowlist; with a valid
photo/transcript/language and a working backend the call succeeds via the
text-only message, returning the parsed payload (no capability error). -/
theorem openai_non_vision_downgrade_witness :
    OpenAIService.supports_vision ⟨"k", "gpt-3.5-turbo"⟩ = false ∧
    OpenAIService.enhance_story_with_photo ⟨"k", "gpt-3.5-turbo"⟩ openaiEnvStub
        "IMGDATA" "hello" "en" =
      .ok { enhanced_transcript := "E", insights := [("a", "b")] } :=
  ⟨(openai_non_vision_downgrade ⟨"k", "gpt-3.5-turbo"⟩ openaiEnvStub "P"
      "IMGDATA" "hello" "en" (by decide)).1,
    by
      have h := (openai_non_vision_downgrade ⟨"k", "gpt-3.5-turbo"⟩
          openaiEnvStub "P" "IMGDATA" "hello" "en" (by decide)).2.2.2
        (by decide) (by decide) (by decide) (by decide) "PROMPT" rfl
      rw [h]
      rfl⟩
